import Mathlib

/-!
Shallow embedding of the dashboard-summarization backend (two Express service
variants in one repository: an SDK-based variant and a REST-based variant).
JavaScript request-body values are modelled by `JsVal`; template-literal
interpolation, `||`-guards, `JSON.stringify`, `Array.prototype.join`, and the
strict-equality client-secret gate are modelled explicitly.  Property access
on `undefined`/`null` (which throws a `TypeError` in JavaScript) is modelled
with `Except`/`Option`.  The unescaped backticks inside the template literals of the SDK
variant are transcribed as literal backtick characters (the evident intent
of the author); the REST variant escapes the same characters.
-/

namespace DashSum

/-- Model of the JavaScript values that can occur in the request bodies and
responses of this service: `undefined`, `null`, strings, and arrays. -/
inductive JsVal where
  | undefined : JsVal
  | null : JsVal
  | str : String → JsVal
  | arr : List JsVal → JsVal

mutual

/-- Template-literal interpolation of a JavaScript value (`String(v)`):
`undefined` renders as "undefined", `null` as "null", arrays as their
elements joined with commas (eliding null/undefined elements). -/
def jsValToString : JsVal → String
  | .undefined => "undefined"
  | .null => "null"
  | .str s => s
  | .arr xs => jsArrToString xs

/-- `Array.prototype.toString`, which joins with a comma separator. -/
def jsArrToString : List JsVal → String
  | [] => ""
  | [v] => jsElemToString v
  | v :: vs => jsElemToString v ++ "," ++ jsArrToString vs

/-- Conversion of one array element under `join`: null and undefined
elements become the empty string. -/
def jsElemToString : JsVal → String
  | .undefined => ""
  | .null => ""
  | .str s => s
  | .arr xs => jsArrToString xs

end

/-- `Array.prototype.join(sep)` on a JavaScript array. -/
def jsJoin (sep : String) : List JsVal → String
  | [] => ""
  | [v] => jsElemToString v
  | v :: vs => jsElemToString v ++ sep ++ jsJoin sep vs

/-- JavaScript truthiness for the modelled values. -/
def jsTruthy : JsVal → Bool
  | .undefined => false
  | .null => false
  | .str s => s != ""
  | .arr _ => true

/-- Rendering of the guarded interpolation `${v || ''}` used for
`description` and `nextStepsInstructions` in the query-summary templates:
a falsy value renders as the empty string. -/
def jsOrEmptyStr (v : JsVal) : String :=
  if jsTruthy v then jsValToString v else ""

/-- JavaScript strict equality `===` on the modelled values.  Two array
values are distinct heap objects in a decoded request body, so `===` on
them is reference equality and yields `false` here. -/
def jsStrictEq : JsVal → JsVal → Bool
  | .undefined, .undefined => true
  | .null, .null => true
  | .str a, .str b => a == b
  | _, _ => false

/-- Escape of one character inside a JSON string literal, as produced by
`JSON.stringify` (quote, backslash and newline are the only escapes needed
for the values this service handles). -/
def jsonEscapeChar (c : Char) : String :=
  if c = '"' then "\\\""
  else if c = '\\' then "\\\\"
  else if c = '\n' then "\\n"
  else String.singleton c

/-- JSON string literal for `s`, as produced by `JSON.stringify`. -/
def jsonQuote (s : String) : String :=
  "\"" ++ String.join (s.data.map jsonEscapeChar) ++ "\""

mutual

/-- `JSON.stringify` on a modelled value; `none` models the JavaScript
`undefined` result for a top-level `undefined` input. -/
def jsonStringify : JsVal → Option String
  | .undefined => none
  | .null => some "null"
  | .str s => some (jsonQuote s)
  | .arr xs => some ("[" ++ jsonArrBody xs ++ "]")

/-- Comma-separated serialization of a JSON array body. -/
def jsonArrBody : List JsVal → String
  | [] => ""
  | [v] => jsonElem v
  | v :: vs => jsonElem v ++ "," ++ jsonArrBody vs

/-- Serialization of one array element: `undefined` inside an array is
serialized as `null` by `JSON.stringify`. -/
def jsonElem : JsVal → String
  | .undefined => "null"
  | .null => "null"
  | .str s => jsonQuote s
  | .arr xs => "[" ++ jsonArrBody xs ++ "]"

end

/-- Rendering of the interpolation `${JSON.stringify(v)}`: when the
serialization is the JavaScript `undefined`, the template renders the
literal text "undefined". -/
def jsonStringifyInterp (v : JsVal) : String :=
  (jsonStringify v).getD "undefined"

/-- The substring relation on strings, via the underlying character lists. -/
def Mentions (hay needle : String) : Prop :=
  needle.data <:+: hay.data

instance (hay needle : String) : Decidable (Mentions hay needle) :=
  List.decidableInfix needle.data hay.data

theorem mentions_of_append (a b c : String) : Mentions (a ++ b ++ c) b := by
  refine ⟨a.data, c.data, ?_⟩
  simp [String.data_append]

/-- Boolean test that `n` is a prefix of `h`, used for kernel-evaluable
substring checks. -/
def pfxOf : List Char → List Char → Bool
  | [], _ => true
  | _ :: _, [] => false
  | a :: as, b :: bs => a == b && pfxOf as bs

theorem pfxOf_iff : ∀ n h : List Char, pfxOf n h = true ↔ n <+: h
  | [], h => by simp [pfxOf]
  | a :: as, [] => by simp [pfxOf]
  | a :: as, b :: bs => by
    simp [pfxOf, List.cons_prefix_cons, pfxOf_iff as bs, Bool.and_eq_true,
      beq_iff_eq, And.comm]

/-- Boolean test that `n` occurs as a contiguous substring of `h`. -/
def subOf (n : List Char) : List Char → Bool
  | [] => n.isEmpty
  | b :: bs => pfxOf n (b :: bs) || subOf n bs

theorem subOf_iff : ∀ n h : List Char, subOf n h = true ↔ n <:+: h
  | n, [] => by
    simp [subOf, List.isEmpty_iff, List.infix_nil]
  | n, b :: bs => by
    simp [subOf, Bool.or_eq_true, pfxOf_iff, subOf_iff n bs,
      List.infix_cons_iff]

theorem infix_of_infix_take {n l : List Char} (k : Nat)
    (h : n <:+: l.take k) : n <:+: l := by
  obtain ⟨s, t, hst⟩ := h
  have hl : (s ++ n ++ t) ++ l.drop k = l := by
    rw [hst, List.take_append_drop]
  exact ⟨s, t ++ l.drop k, by rw [← List.append_assoc]; exact hl⟩

/-- An occurrence of `n` in `a ++ b` either fits inside `a` extended by the
first `n.length - 1` characters of `b`, or lies entirely inside `b`. -/
theorem infix_append_cases (n a b : List Char) (h : n <:+: a ++ b) :
    n <:+: a ++ b.take (n.length - 1) ∨ n <:+: b := by
  obtain ⟨s, t, hst⟩ := h
  rcases Nat.lt_or_ge s.length a.length with hlt | hle
  · left
    rcases n with _ | ⟨c, cs⟩
    · exact ⟨[], a ++ b.take 0, by simp⟩
    · have hsn : s ++ c :: cs = (a ++ b).take (s.length + (c :: cs).length) := by
        rw [← hst]
        rw [show s ++ c :: cs ++ t = (s ++ c :: cs) ++ t by simp]
        rw [show s.length + (c :: cs).length = (s ++ c :: cs).length by simp]
        exact (List.take_left _ _).symm
      have hk : s.length + (c :: cs).length ≤ a.length + ((c :: cs).length - 1) := by
        simp only [List.length_cons]
        omega
      have h1 : c :: cs <:+: (a ++ b).take (s.length + (c :: cs).length) :=
        ⟨s, [], by simp [hsn]⟩
      have h2 : c :: cs <:+: (a ++ b).take (a.length + ((c :: cs).length - 1)) := by
        apply infix_of_infix_take (s.length + (c :: cs).length)
        rw [List.take_take, Nat.min_eq_left hk]
        exact h1
      have htake : (a ++ b).take (a.length + ((c :: cs).length - 1))
          = a ++ b.take ((c :: cs).length - 1) := by
        rw [List.take_append_eq_append_take,
          List.take_of_length_le (by omega), Nat.add_sub_cancel_left]
      rwa [htake] at h2
  · right
    have hpfx : a <+: s := by
      have hs : s <+: a ++ b := ⟨n ++ t, by simp [← hst]⟩
      have ha : a <+: a ++ b := ⟨b, rfl⟩
      exact List.prefix_of_prefix_length_le ha hs hle
    obtain ⟨s', rfl⟩ := hpfx
    refine ⟨s', t, ?_⟩
    have : a ++ (s' ++ n ++ t) = a ++ b := by
      simpa using hst
    exact List.append_cancel_left this

/-- Elimination step for scanning a concatenation from the left: if `n`
does not fit in the window made of `a` plus the first `n.length - 1`
characters of `b`, any occurrence must lie in `b`. -/
theorem infix_append_elim (n a b : List Char) (h : n <:+: a ++ b)
    (hw : subOf n (a ++ b.take (n.length - 1)) = false) : n <:+: b := by
  rcases infix_append_cases n a b h with hc | hc
  · exact absurd ((subOf_iff _ _).mpr hc) (by simp [hw])
  · exact hc

/-- Two strings are different when, after a common prefix, their heads
differ. -/
theorem string_ne_of_head_ne {c1 c2 : Char} (hne : c1 ≠ c2)
    (xs ys u v : List Char) (x y : String)
    (hx : x.data = (c1 :: xs) ++ u) (hy : y.data = (c2 :: ys) ++ v) :
    x ≠ y := by
  intro he
  rw [he, hy] at hx
  simp [List.cons_append] at hx
  exact hne hx.1.symm

theorem strAppend_left_cancel {a x y : String} (h : a ++ x = a ++ y) :
    x = y := by
  have hd : a.data ++ x.data = a.data ++ y.data := by
    have := congrArg String.data h
    simpa [String.data_append] using this
  exact String.ext (List.append_cancel_left hd)


/-- The queryBody object of a QueryDescriptor; only its fields member is
read by the prompt builders. -/
structure QueryBody where
  fields : JsVal

/-- Caller-supplied query descriptor: title, note_text, queryBody and
queryData, as read by the query-summary prompt builders.  `queryBody` is
an `Option` because an absent (or null) queryBody makes the source throw a
TypeError when reading `query.queryBody.fields`. -/
structure QueryDescriptor where
  title : JsVal
  note_text : JsVal
  queryBody : Option QueryBody
  queryData : JsVal

/-- The SDK variant note-emptiness test, transcribed from
`query.note_text !== '' || query.note_text !== null` (source line 113).
Note the `||`: the disjunction is true for every value. -/
def sdkNoteCond (nt : JsVal) : Bool :=
  !(jsStrictEq nt (.str "")) || !(jsStrictEq nt .null)

/-- The note segment of the SDK query-summary context: the ternary
`cond ? "Query Note: " + query.note_text : ... ` (source line 113). -/
def sdkNoteSeg (nt : JsVal) : String :=
  if sdkNoteCond nt then "Query Note: " ++ jsValToString nt else ""

/-- The REST variant note-emptiness test, transcribed from
`query.note_text !== '' && query.note_text !== null` (source line 411). -/
def restNoteCond (nt : JsVal) : Bool :=
  !(jsStrictEq nt (.str "")) && !(jsStrictEq nt .null)

/-- The note segment of the REST query-summary prompt. -/
def restNoteSeg (nt : JsVal) : String :=
  if restNoteCond nt then "Query Note: " ++ jsValToString nt else ""


/-- Interpolated context block of the SDK variant generateQuerySummary (source lines 110-114). The template literal is transcribed exactly; adjacent string literals are the one source literal split at proof-relevant boundaries. -/
def sdkContext (q : QueryDescriptor) (qb : QueryBody) (description nextSteps : JsVal) : String :=
  "\n    "
  ++ ("Summary style/specialized instructions: "
  ++ ((jsOrEmptyStr nextSteps)
  ++ ("\n    Dashboard Detail: "
  ++ ((jsOrEmptyStr description)
  ++ (" \n"
  ++ ("\n    Query Details:  \"Query Title: "
  ++ ((jsValToString q.title)
  ++ (" \n "
  ++ ((sdkNoteSeg q.note_text)
  ++ (" \n Query Fields: "
  ++ ((jsValToString qb.fields)
  ++ (" \n Query Data: "
  ++ ((jsonStringifyInterp q.queryData)
  ++ " \n\"\n    ")))))))))))))

/-- Query-summary prompt template of the SDK variant (source lines 115-152); the context block is spliced in. The template literal is transcribed exactly; adjacent string literals are the one source literal split at proof-relevant boundaries. -/
def sdkQuerySummaryPromptOf (ctx : String) : String :=
  "\n    You are an expert Looker dashboard analyst tasked with summarizing dashboard queries and providing actionable next steps in Markdown format.\n\n    **Strict Formatting and Content Requirements:**\n\n    * **Markdown Output:** All responses must be formatted using Markdown. S"
  ++ ("upported elements include headings, bold, italic, links, tables, lists, code blocks, and blockquotes.\n    * **No Images:** Do not include or attempt to render images.\n    * **Numerical Formatting:** Format numerical values as percentages or dollar amounts (rounded to the near"
  ++ ("est cent).\n    * **No Indentation:** Do not indent any part of your response.\n    * **Query-Specific Sections:** Each dashboard query summary should adhere to the following structure, starting on a new line:\n        * \x60## Query Name\x60: Use the \"Query Title\" from the provided "
  ++ ("\x60"
  ++ ("context\x60.\n        * \x60Description\x60: A concise (2-4 sentences) paragraph describing the query.\n        * \x60> Summary\x60: A blockquote (3-5 sentences) summarizing the query results for user comprehension.\n        * \x60## Next Steps\x60: A bull"
  ++ ("eted list of 2-3 actionable next steps based on the query summary.\n    * **Newlines and Dividers:** Each query summary must start on a new line and end with a horizontal divider (\x60---\x60).\n\n    **Context:**\n    \n    \x27\x27\x27\n    Context: "
  ++ ((ctx)
  ++ ("\n    \x27\x27\x27\n\n    **Example Output (Use as a Template, Not Verbatim):**\n\n    \x27\x27\x27markdown\n    ## Web Traffic Over Time\n\n    This query details the amount of web traffic received to the website over the past 6 months. It includes a web traffic source field of organic, search, and display, as well as an amount field detailing the number of users from those sources.\n\n    > "
  ++ ("It appears that search has consistently driven the highest user traffic, with 9875 users in the past month and a peak in December at 1000 unique users. Organic traffic is the second highest, while display traffic is significantly lower. Display traffic started strong but declined steadily. There was a notable 23% spike in organic traffic in March.\n\n    ## Next Steps"
  ++ "\n    * Investigate the 23% organic traffic spike in March to identify potential causes (e.g., marketing campaign, website error).\n    * Segment search traffic by campaign source to identify high-performing strategies.\n    * Analyze display traffic patterns to determine the factors contributing to its decline and explore optimization strategies.\n    ---\n    \x27\x27\x27\n    "))))))))

/-- Dashboard-summary prompt of the SDK variant generateSummary (source lines 175-209); joined is querySummaries.join of the request value, n is nextStepsInstructions. The template literal is transcribed exactly; adjacent string literals are the one source literal split at proof-relevant boundaries. -/
def sdkSummaryPromptOf (joined : String) (n : JsVal) : String :=
  "\n    You are a specialized answering assistant that can summarize a Looker dashboard and the underlying data and propose operational next steps drawing conclusions from the Query Details listed above. Fol"
  ++ ("low the instructions below:\n\n    Please highlight the findings of all of the query data here. All responses MUST be based on the actual information returned by these queries: \n                            "
  ++ ("\n"
  ++ ("    data: "
  ++ ((joined)
  ++ ("\n\n    For example, use the names of the locations in the data series (like Seattle, Indianapolis, Chicago, etc) in recommendations regarding locations. Use the name of a process if discussing processes. Don\x27t use row numbers to refer to any facility, process or location. This information should be sourced from the above data.\n    Surface the most important or notable de"
  ++ ("tails and combine next steps recommendations into one bulleted list of 2-6 suggestions. \n \n    --------------\n    Here is an output format Example:\n        ---------------\n        \n        ## Web Traffic Over Time \n\n        This query details the amount of web traffic received to the website over the past 6 months. It includes a web traffic source field of organic, sear"
  ++ ("ch and display\n        as well as an amount field detailing the amount of people coming from those sources to the website. \n\n        \n        > It looks like search historically has been driving the most user traffic with 9875 users over the past month with peak traffic happening in december at 1000 unique users.\n        Organic comes in second and display a distant 3rd"
  ++ (". It seems that display got off to a decent start in the year, but has decreased in volume consistently into the end of the year.\n        There appears to be a large spike in organic traffic during the month of March a 23% increase from the rest of the year.\n\n        \n\n        \n        ## Next Steps\n        * Look into the data for the month of March to determine if the"
  ++ ("re was an issue in reporting and/or what sort of local events could have caused the spike\n        * Continue investing into search advertisement with common digital marketing strategies. IT would also be good to identify/breakdown this number by campaign source and see what strategies have been working well for Search.\n        * Display seems to be dropping off and vari"
  ++ ("able. Use only during select months and optimize for heavily trafficed areas with a good demographic for the site retention.\n\n        \n\n    -----------\n\n    Please add actionable next steps, both for immediate intervention, improved data gathering and further analysis of existing data.\n    Here are some tips for creating actionable next steps: \n\n    -----------\n    "
  ++ ((jsValToString n)
  ++ "\n    -----------\n    \n    ")))))))))))

/-- Query-suggestions prompt of the SDK variant generateQuerySuggestions (source lines 221-248). The template literal is transcribed exactly; adjacent string literals are the one source literal split at proof-relevant boundaries. -/
def sdkSuggestionsPrompt (qr qs n : JsVal) : String :=
  "\n    You are an expert Looker analyst tasked with generating actionable next-step investigation queries in JSON format.\n\n    Your goal is to provide a JSON array of strings, where each string represents a potential Looker query or data exploration suggestion. These suggestions should directly address the \"next steps\" in analysis, guided by the following crite"
  ++ ("ria:\n\n    * **Actionable and Looker-Executable:** Queries must be feasible within the Looker platform.\n    * **Targeted Investigation:** Queries should build upon the provided queryResults and querySummaries, avoiding repetition of existing analyses.\n    * **Alignment with Next Steps:** Queries must directly relate to the analytical \"next steps\" outlined in \x60"
  ++ ((jsValToString n)
  ++ ("\x60 and the context provided within \x60"
  ++ ((jsValToString qs)
  ++ ("\x60.\n    * **Date Filtering:** Include a date filter in every query. If a relevant date range isn\x27t specified in the context, default to the \"last 30 days.\"\n\n    Here\x27s the data context:\n\n    * **Current Data:** \x60"
  ++ ((jsValToString qr)
  ++ ("\x60\n    * **Previous Analysis and Next Steps:** \x60"
  ++ ((jsValToString qs)
  ++ ("\x60\n    * **Next Step Instructions:** \x60"
  ++ ((jsValToString n)
  ++ ("\x60\n\n    Output Format:\n\n    Provide your response in the following JSON format, containing exactly three querySuggestion elements:\n\n    "
  ++ ("\x27"
  ++ "\x27\x27json\n    [\n        \x7b\"querySuggestion\": \"Show me the top XXX entries for YYY on October 13th, 2024\"\x7d,\n        \x7b\"querySuggestion\": \"What are the lowest values for ZZZ, grouped by AAA, in the last 30 days?\"\x7d,\n        \x7b\"querySuggestion\": \"What is the productivity and standard deviation for the XXX facility for the past 3 months?\"\x7d\n    ]\n    \x27\x27\x27\n    "))))))))))))

/-- Query-summary prompt of the REST variant getQuerySummaryPrompt (source lines 389-430). The template literal is transcribed exactly; adjacent string literals are the one source literal split at proof-relevant boundaries. -/
def restQuerySummaryPromptOf (q : QueryDescriptor) (qb : QueryBody) (description nextSteps : JsVal) : String :=
  "\n    You are an expert Looker dashboard analyst tasked with summarizing dashboard queries and providing actionable next steps in Markdown format.\n\n    **Strict Formatting and Content Requirements:**\n\n    * **Markdown Output:** All responses must be formatted using Markdown. S"
  ++ ("upported elements include headings, bold, italic, links, tables, lists, code blocks, and blockquotes.\n    * **No Images:** Do not include or attempt to render images.\n    * **Numerical Formatting:** Format numerical values as percentages or dollar amounts (rounded to the near"
  ++ ("est cent).\n    * **No Indentation:** Do not indent any part of your response.\n    * **Query-Specific Sections:** Each dashboard query summary should adhere to the following structure, starting on a new line:\n        * \x60## Query Name\x60: Use the \"Query Title\" from the provided "
  ++ ("c"
  ++ ("ontext.\n        * \x60Description\x60: A concise (2-4 sentences) paragraph describing the query.\n        * \x60> Summary\x60: A blockquote (3-5 sentences) summarizing the query results for user comprehension.\n        * \x60## Next Steps\x60"
  ++ (": A bulleted list of 2-3 actionable next steps based on the query summary.\n    * **Newlines and Dividers:** Each query summary must start on a new line and end with a horizontal divider (\x60---\x60).\n\n    **Context:**\n    \n    "
  ++ ("Summary style/specialized instructions: "
  ++ ((jsOrEmptyStr nextSteps)
  ++ ("\n    Dashboard Detail: "
  ++ ((jsOrEmptyStr description)
  ++ (" \n"
  ++ ("\n    Query Details: \"Query Title: "
  ++ ((jsValToString q.title)
  ++ (" \n    "
  ++ ((restNoteSeg q.note_text)
  ++ (" \n    Query Fields: "
  ++ ((jsValToString qb.fields)
  ++ (" \n    Query Data: "
  ++ ((jsonStringifyInterp q.queryData)
  ++ ("\"\n\n    **Example Output (Use as a Template, Not Verbatim):**\n\n    \x60\x60\x60markdown\n    ## Web Traffic Over Time\n\n    This query details the amount of web traffic received to the website over the past 6 months. It includes a web traffic source field of organic, search, and display, as well as an amount field detailing the number of users from those sources.\n\n    > It ap"
  ++ ("pears that search has consistently driven the highest user traffic, with 9875 users in the past month and a peak in December at 1000 unique users. Organic traffic is the second highest, while display traffic is significantly lower. Display traffic started strong but declined steadily. There was a notable 23% spike in organic traffic in March.\n\n    ## Next Steps\n  "
  ++ "  * Investigate the 23% organic traffic spike in March to identify potential causes (e.g., marketing campaign, website error).\n    * Segment search traffic by campaign source to identify high-performing strategies.\n    * Analyze display traffic patterns to determine the factors contributing to its decline and explore optimization strategies.\n    ---\n    \x60\x60\x60\n    "))))))))))))))))))))

/-- Dashboard-summary prompt of the REST variant generateSummary (source lines 437-471). The template literal is transcribed exactly; adjacent string literals are the one source literal split at proof-relevant boundaries. -/
def restSummaryPromptOf (joined : String) (n : JsVal) : String :=
  "\n    You are a specialized answering assistant that can summarize a Looker dashboard and the underlying data and propose operational next steps drawing conclusions from the Query Details listed above. Fol"
  ++ ("low the instructions below:\n\n    Please highlight the findings of all of the query data here. All responses MUST be based on the actual information returned by these queries: \n                            "
  ++ (" "
  ++ ("        \n    data: "
  ++ ((joined)
  ++ ("\n\n    For example, use the names of the locations in the data series (like Seattle, Indianapolis, Chicago, etc) in recommendations regarding locations. Use the name of a process if discussing processes. Don\x27t use row numbers to refer to any facility, process or location. This information should be sourced from the above data.\n    Surface the most important or"
  ++ (" notable details and combine next steps recommendations into one bulleted list of 2-6 suggestions. \n\n    --------------\n    Here is an output format Example:\n    ----------------\n    \n    ## Web Traffic Over Time \n\n    This query details the amount of web traffic received to the website over the past 6 months. It includes a web traffic source field of organic"
  ++ (", search and display\n    as well as an amount field detailing the amount of people coming from those sources to the website. \n\n    \n    > It looks like search historically has been driving the most user traffic with 9875 users over the past month with peak traffic happening in december at 1000 unique users.\n    Organic comes in second and display a distant 3r"
  ++ ("d. It seems that display got off to a decent start in the year, but has decreased in volume consistently into the end of the year.\n    There appears to be a large spike in organic traffic during the month of March a 23% increase from the rest of the year.\n\n    \n\n    \n    ## Next Steps\n    * Look into the data for the month of March to determine if there was a"
  ++ ("n issue in reporting and/or what sort of local events could have caused the spike\n    * Continue investing into search advertisement with common digital marketing strategies. IT would also be good to identify/breakdown this number by campaign source and see what strategies have been working well for Search.\n    * Display seems to be dropping off and variable."
  ++ (" Use only during select months and optimize for heavily trafficed areas with a good demographic for the site retention.\n\n    \n\n    -----------\n\n    Please add actionable next steps, both for immediate intervention, improved data gathering and further analysis of existing data.\n    Here are some tips for creating actionable next steps: \n\n    -----------\n    "
  ++ ((jsValToString n)
  ++ "\n    -----------\n    \n    ")))))))))))

/-- Query-suggestions prompt of the REST variant generateQuerySuggestions (source lines 500-527). The template literal is transcribed exactly; adjacent string literals are the one source literal split at proof-relevant boundaries. -/
def restSuggestionsPrompt (qr qs n : JsVal) : String :=
  "\n    You are an expert Looker analyst tasked with generating actionable next-step investigation queries in JSON format.\n\n    Your goal is to provide a JSON array of strings, where each string represents a potential Looker query or data exploration suggestion. These suggestions should directly address the \"next steps\" in analysis, guided by the following crite"
  ++ ("ria:\n\n    * **Actionable and Looker-Executable:** Queries must be feasible within the Looker platform.\n    * **Targeted Investigation:** Queries should build upon the provided queryResults and querySummaries, avoiding repetition of existing analyses.\n    * **Alignment with Next Steps:** Queries must directly relate to the analytical \"next steps\" outlined in \x60"
  ++ ((jsValToString n)
  ++ ("\x60 and the context provided within \x60"
  ++ ((jsValToString qs)
  ++ ("\x60.\n    * **Date Filtering:** Include a date filter in every query. If a relevant date range isn\x27t specified in the context, default to the \"last 30 days.\"\n\n    Here\x27s the data context:\n\n    * **Current Data:** \x60"
  ++ ((jsValToString qr)
  ++ ("\x60\n    * **Previous Analysis and Next Steps:** \x60"
  ++ ((jsValToString qs)
  ++ ("\x60\n    * **Next Step Instructions:** \x60"
  ++ ((jsValToString n)
  ++ ("\x60\n\n    Output Format:\n\n    Provide your response in the following JSON format, containing exactly three querySuggestion elements:\n\n    "
  ++ ("\x60"
  ++ "\x60\x60json\n    [\n        \x7b\"querySuggestion\": \"Show me the top XXX entries for YYY on October 13th, 2024\"\x7d,\n        \x7b\"querySuggestion\": \"What are the lowest values for ZZZ, grouped by AAA, in the last 30 days?\"\x7d,\n        \x7b\"querySuggestion\": \"What is the productivity and standard deviation for the XXX facility for the past 3 months?\"\x7d\n    ]\n    \x60\x60\x60\n    "))))))))))))

/-- Query-summary prompt of the SDK variant, with the TypeError thrown by
reading `query.queryBody.fields` on an absent queryBody modelled as an
`Except.error`. -/
def sdkQuerySummaryPrompt (q : QueryDescriptor) (description nextSteps : JsVal) :
    Except String String :=
  match q.queryBody with
  | none => .error "TypeError: Cannot read properties of undefined (reading fields)"
  | some qb => .ok (sdkQuerySummaryPromptOf (sdkContext q qb description nextSteps))

/-- Query-summary prompt of the REST variant, with the same TypeError
modelling for an absent queryBody. -/
def restQuerySummaryPrompt (q : QueryDescriptor) (description nextSteps : JsVal) :
    Except String String :=
  match q.queryBody with
  | none => .error "TypeError: Cannot read properties of undefined (reading fields)"
  | some qb => .ok (restQuerySummaryPromptOf q qb description nextSteps)

/-- One part of a candidate content: its text member (a JsVal, since the
field may be absent). -/
structure GenPart where
  text : JsVal

/-- The content member of a candidate; `parts` is an Option because the
member may be absent from the decoded body. -/
structure GenContent where
  parts : Option (List GenPart)

/-- One candidate of the decoded model response. -/
structure GenCandidate where
  content : Option GenContent

/-- Decoded model-response body: an optional error message
(`data.error.message`) and an optional candidates array. -/
structure GenData where
  error : Option String
  candidates : Option (List GenCandidate)

/-- SDK variant extraction `resp.candidates[0].content.parts[0].text`
(source line 166): without optional chaining, every missing step of the
path throws a TypeError, modelled as an error. -/
def extractSDK (d : GenData) : Except String JsVal :=
  match d.candidates with
  | none => .error "TypeError: Cannot read properties of undefined (reading 0)"
  | some [] => .error "TypeError: Cannot read properties of undefined (reading content)"
  | some (c :: _) =>
    match c.content with
    | none => .error "TypeError: Cannot read properties of undefined (reading parts)"
    | some ct =>
      match ct.parts with
      | none => .error "TypeError: Cannot read properties of undefined (reading 0)"
      | some [] => .error "TypeError: Cannot read properties of undefined (reading text)"
      | some (p :: _) => .ok p.text

/-- REST variant extraction `data.candidates[0]?.content?.parts[0]?.text || ''`
(source line 385): the optional chain short-circuits on a missing first
candidate or missing content, but a missing candidates array (or a missing
parts array) still throws, and a falsy text defaults to the empty string. -/
def extractREST (d : GenData) : Except String JsVal :=
  match d.candidates with
  | none => .error "TypeError: Cannot read properties of undefined (reading 0)"
  | some [] => .ok (.str "")
  | some (c :: _) =>
    match c.content with
    | none => .ok (.str "")
    | some ct =>
      match ct.parts with
      | none => .error "TypeError: Cannot read properties of undefined (reading 0)"
      | some [] => .ok (.str "")
      | some (p :: _) => .ok (if jsTruthy p.text then p.text else .str "")

/-- Request body of POST /generateQuerySummary.  `query` is an Option: an
absent query makes the handlers throw when reading `query.title`. -/
structure QuerySummaryBody where
  client_secret : JsVal
  query : Option QueryDescriptor
  description : JsVal
  nextStepsInstructions : JsVal

/-- Request body of POST /generateSummary. -/
structure SummaryBody where
  client_secret : JsVal
  querySummaries : JsVal
  nextStepsInstructions : JsVal

/-- Request body of POST /generateQuerySuggestions. -/
structure SuggestionsBody where
  client_secret : JsVal
  queryResults : JsVal
  querySummaries : JsVal
  nextStepsInstructions : JsVal

/-- Response sent back to the HTTP caller: either `res.json({field: value})`
or `res.status(s).send(text)` represented by the route status plus this body. -/
inductive RespBody where
  | jsonField : String → JsVal → RespBody
  | plain : String → RespBody

/-- Outcome of one route invocation: HTTP status, response body, the
prompts actually sent to the model gateway, and the server-side log lines
produced by the catch handler. -/
structure RouteResult where
  status : Nat
  body : RespBody
  sentPrompts : List String
  log : List String

/-- The 403 response produced by the verifyClientSecret middleware. -/
def forbidden : RouteResult :=
  ⟨403, .plain "Forbidden: Invalid client secret", [], []⟩

/-- The SDK model gateway `generativeModel.generateContent`: it either
throws (error) or resolves with a decoded response. -/
def SdkUpstream := Except String GenData

/-- SDK generateQuerySummary pipeline (source lines 109-167): build the
prompt, send it, extract the first candidate text.  The returned list
records the prompts actually sent. -/
def sdkQuerySummaryCall (upstream : Except String GenData)
    (q : Option QueryDescriptor) (description nextSteps : JsVal) :
    List String × Except String JsVal :=
  match q with
  | none => ([], .error "TypeError: Cannot read properties of undefined (reading title)")
  | some qd =>
    match sdkQuerySummaryPrompt qd description nextSteps with
    | .error e => ([], .error e)
    | .ok p =>
      match upstream with
      | .error e => ([p], .error e)
      | .ok data => ([p], extractSDK data)

/-- SDK generateSummary pipeline (source lines 171-217):
`rawQuerySummaries.join` throws unless the value is an array. -/
def sdkSummaryCall (upstream : Except String GenData)
    (querySummaries nextSteps : JsVal) :
    List String × Except String JsVal :=
  match querySummaries with
  | .arr xs =>
    let p := sdkSummaryPromptOf (jsJoin "\n" xs) nextSteps
    match upstream with
    | .error e => ([p], .error e)
    | .ok data => ([p], extractSDK data)
  | _ => ([], .error "TypeError: rawQuerySummaries.join is not a function")

/-- SDK generateQuerySuggestions pipeline (source lines 219-257): the
prompt interpolates all three fields unguarded, so it never throws. -/
def sdkSuggestionsCall (upstream : Except String GenData)
    (queryResults querySummaries nextSteps : JsVal) :
    List String × Except String JsVal :=
  let p := sdkSuggestionsPrompt queryResults querySummaries nextSteps
  match upstream with
  | .error e => ([p], .error e)
  | .ok data => ([p], extractSDK data)

/-- One HTTP response from the REST variant upstream fetch: transport
status, raw body text (read on failure), and the decoded JSON body (read
on success). -/
structure RestHttpResp where
  status : Nat
  bodyText : String
  data : GenData

/-- `response.ok`: status in the 2xx range. -/
def responseOk (s : Nat) : Bool := 200 ≤ s && s ≤ 299

/-- Shared tail of the three REST pipelines after the fetch resolves
(source lines 375-385 and analogues): non-ok status throws a wrapped
transport error, an error field in the body throws a wrapped provider
error, otherwise the text is extracted. -/
def restAfterFetch (resp : RestHttpResp) : Except String JsVal :=
  if responseOk resp.status then
    match resp.data.error with
    | some m => .error ("Vertex AI API error: " ++ m)
    | none => extractREST resp.data
  else
    .error ("API request failed with status " ++ toString resp.status ++ ": " ++ resp.bodyText)

/-- REST generateQuerySummary pipeline (source lines 355-386): token first,
then prompt, then fetch. -/
def restQuerySummaryCall (token : Except String String) (resp : RestHttpResp)
    (q : Option QueryDescriptor) (description nextSteps : JsVal) :
    List String × Except String JsVal :=
  match token with
  | .error e => ([], .error e)
  | .ok _ =>
    match q with
    | none => ([], .error "TypeError: Cannot read properties of undefined (reading title)")
    | some qd =>
      match restQuerySummaryPrompt qd description nextSteps with
      | .error e => ([], .error e)
      | .ok p => ([p], restAfterFetch resp)

/-- REST generateSummary pipeline (source lines 435-494):
`querySummaries.join` is evaluated while rendering the template and throws
unless the value is an array. -/
def restSummaryCall (token : Except String String) (resp : RestHttpResp)
    (querySummaries nextSteps : JsVal) :
    List String × Except String JsVal :=
  match token with
  | .error e => ([], .error e)
  | .ok _ =>
    match querySummaries with
    | .arr xs => ([restSummaryPromptOf (jsJoin "\n" xs) nextSteps],
        restAfterFetch resp)
    | _ => ([], .error "TypeError: querySummaries.join is not a function")

/-- REST generateQuerySuggestions pipeline (source lines 498-550). -/
def restSuggestionsCall (token : Except String String) (resp : RestHttpResp)
    (queryResults querySummaries nextSteps : JsVal) :
    List String × Except String JsVal :=
  match token with
  | .error e => ([], .error e)
  | .ok _ => ([restSuggestionsPrompt queryResults querySummaries nextSteps],
      restAfterFetch resp)

/-- Generic gated route: the verifyClientSecret middleware rejects with 403
unless the body secret strictly equals the stored secret; otherwise the
handler runs, responding 200 with a JSON field on success and 500 with a
plain body (after logging) on any thrown error. -/
def gatedRoute (stored bodySecret : JsVal) (field : String) (logPre : String)
    (call : List String × Except String JsVal) : RouteResult :=
  if jsStrictEq bodySecret stored then
    match call with
    | (ps, .ok v) => ⟨200, .jsonField field v, ps, []⟩
    | (ps, .error e) => ⟨500, .plain "Internal Server Error", ps, [logPre ++ e]⟩
  else forbidden

/-- SDK variant POST /generateQuerySummary (source lines 74-84). -/
def sdkQuerySummaryRoute (stored : JsVal) (upstream : Except String GenData)
    (b : QuerySummaryBody) : RouteResult :=
  gatedRoute stored b.client_secret "summary"
    "There was an error processing the individual query summary: "
    (sdkQuerySummaryCall upstream b.query b.description b.nextStepsInstructions)

/-- SDK variant POST /generateSummary (source lines 85-95). -/
def sdkSummaryRoute (stored : JsVal) (upstream : Except String GenData)
    (b : SummaryBody) : RouteResult :=
  gatedRoute stored b.client_secret "summary"
    "There was an error processing the dashboard summary: "
    (sdkSummaryCall upstream b.querySummaries b.nextStepsInstructions)

/-- SDK variant POST /generateQuerySuggestions (source lines 96-106). -/
def sdkSuggestionsRoute (stored : JsVal) (upstream : Except String GenData)
    (b : SuggestionsBody) : RouteResult :=
  gatedRoute stored b.client_secret "suggestions"
    "There was an error processing the query suggestions: "
    (sdkSuggestionsCall upstream b.queryResults b.querySummaries b.nextStepsInstructions)

/-- REST variant POST /generateQuerySummary (source lines 320-329). -/
def restQuerySummaryRoute (stored : JsVal) (token : Except String String)
    (resp : RestHttpResp) (b : QuerySummaryBody) : RouteResult :=
  gatedRoute stored b.client_secret "summary"
    "Error in /generateQuerySummary: "
    (restQuerySummaryCall token resp b.query b.description b.nextStepsInstructions)

/-- REST variant POST /generateSummary (source lines 331-340). -/
def restSummaryRoute (stored : JsVal) (token : Except String String)
    (resp : RestHttpResp) (b : SummaryBody) : RouteResult :=
  gatedRoute stored b.client_secret "summary"
    "Error in /generateSummary: "
    (restSummaryCall token resp b.querySummaries b.nextStepsInstructions)

/-- REST variant POST /generateQuerySuggestions (source lines 342-351). -/
def restSuggestionsRoute (stored : JsVal) (token : Except String String)
    (resp : RestHttpResp) (b : SuggestionsBody) : RouteResult :=
  gatedRoute stored b.client_secret "suggestions"
    "Error in /generateQuerySuggestions: "
    (restSuggestionsCall token resp b.queryResults b.querySummaries b.nextStepsInstructions)


theorem mentions_self (s : String) : Mentions s s := ⟨[], [], by simp⟩

theorem mentions_of_eq (pre n post : String) {h : String}
    (he : h = pre ++ (n ++ post)) : Mentions h n := by
  rw [he]
  exact ⟨pre.data, post.data, by simp [String.data_append, List.append_assoc]⟩

theorem strAppend_assoc (a b c : String) : (a ++ b) ++ c = a ++ (b ++ c) :=
  String.ext (by simp [String.data_append])

theorem string_ne_of_single_head {c1 c2 : Char} (hne : c1 ≠ c2)
    {h k : String} (u v : String) (hh : h.data = [c1]) (hk : k.data = [c2]) :
    h ++ u ≠ k ++ v := by
  apply string_ne_of_head_ne hne [] [] u.data v.data
  · simp [String.data_append, hh]
  · simp [String.data_append, hk]

theorem gatedRoute_fail {stored bs : JsVal} (f lp : String)
    (call : List String × Except String JsVal)
    (h : jsStrictEq bs stored = false) :
    gatedRoute stored bs f lp call = forbidden := by
  simp [gatedRoute, h]

theorem gatedRoute_pass_ok {stored bs : JsVal} (f lp : String)
    (ps : List String) (v : JsVal) (h : jsStrictEq bs stored = true) :
    gatedRoute stored bs f lp (ps, .ok v) = ⟨200, .jsonField f v, ps, []⟩ := by
  simp [gatedRoute, h]

theorem gatedRoute_pass_err {stored bs : JsVal} (f lp : String)
    (ps : List String) (e : String) (h : jsStrictEq bs stored = true) :
    gatedRoute stored bs f lp (ps, .error e) =
      ⟨500, .plain "Internal Server Error", ps, [lp ++ e]⟩ := by
  simp [gatedRoute, h]

theorem gatedRoute_forbidden_iff (stored bs : JsVal) (f lp : String)
    (call : List String × Except String JsVal) :
    gatedRoute stored bs f lp call = forbidden ↔ jsStrictEq bs stored = false := by
  constructor
  · intro h
    by_contra hne
    have ht : jsStrictEq bs stored = true := by
      revert hne; cases jsStrictEq bs stored <;> simp
    obtain ⟨ps, r⟩ := call
    cases r with
    | ok v => rw [gatedRoute_pass_ok f lp ps v ht] at h; simp [forbidden] at h
    | error e => rw [gatedRoute_pass_err f lp ps e ht] at h; simp [forbidden] at h
  · intro h
    exact gatedRoute_fail f lp call h

theorem gatedRoute_status_ne {stored bs : JsVal} (f lp : String)
    (call : List String × Except String JsVal)
    (h : jsStrictEq bs stored = true) :
    (gatedRoute stored bs f lp call).status ≠ 403 := by
  obtain ⟨ps, r⟩ := call
  cases r with
  | ok v => rw [gatedRoute_pass_ok f lp ps v h]; simp
  | error e => rw [gatedRoute_pass_err f lp ps e h]; simp

theorem gatedRoute_sent {stored bs : JsVal} (f lp : String)
    (call : List String × Except String JsVal)
    (h : jsStrictEq bs stored = true) :
    (gatedRoute stored bs f lp call).sentPrompts = call.1 := by
  obtain ⟨ps, r⟩ := call
  cases r with
  | ok v => rw [gatedRoute_pass_ok f lp ps v h]
  | error e => rw [gatedRoute_pass_err f lp ps e h]

/-- C8: if the GENAI_CLIENT_SECRET environment variable is unset the stored
secret is undefined, and a request that simply omits client_secret passes
the gate (undefined === undefined), so none of the six routes (three per
variant) answers 403, and the pipeline proceeds (for the suggestions
routes, whose prompt building cannot throw, a prompt is actually sent). -/
theorem claim_C8 :
    ∀ (up : Except String GenData) (token : Except String String)
      (resp : RestHttpResp) (q : Option QueryDescriptor) (d n qr qs : JsVal),
      (sdkQuerySummaryRoute .undefined up ⟨.undefined, q, d, n⟩).status ≠ 403
    ∧ (sdkSummaryRoute .undefined up ⟨.undefined, qs, n⟩).status ≠ 403
    ∧ (sdkSuggestionsRoute .undefined up ⟨.undefined, qr, qs, n⟩).status ≠ 403
    ∧ (restQuerySummaryRoute .undefined token resp ⟨.undefined, q, d, n⟩).status ≠ 403
    ∧ (restSummaryRoute .undefined token resp ⟨.undefined, qs, n⟩).status ≠ 403
    ∧ (restSuggestionsRoute .undefined token resp ⟨.undefined, qr, qs, n⟩).status ≠ 403
    ∧ (sdkSuggestionsRoute .undefined up ⟨.undefined, qr, qs, n⟩).sentPrompts
        = [sdkSuggestionsPrompt qr qs n] := by
  intro up token resp q d n qr qs
  have hu : jsStrictEq JsVal.undefined JsVal.undefined = true := rfl
  refine ⟨?_, ?_, ?_, ?_, ?_, ?_, ?_⟩
  · exact gatedRoute_status_ne _ _ _ hu
  · exact gatedRoute_status_ne _ _ _ hu
  · exact gatedRoute_status_ne _ _ _ hu
  · exact gatedRoute_status_ne _ _ _ hu
  · exact gatedRoute_status_ne _ _ _ hu
  · exact gatedRoute_status_ne _ _ _ hu
  · have h := gatedRoute_sent
      "suggestions" "There was an error processing the query suggestions: "
      (sdkSuggestionsCall up qr qs n) hu
    rw [show sdkSuggestionsRoute .undefined up ⟨.undefined, qr, qs, n⟩
        = gatedRoute .undefined .undefined "suggestions"
          "There was an error processing the query suggestions: "
          (sdkSuggestionsCall up qr qs n) from rfl, h]
    cases up <;> rfl

/-- C1 counterexample: a request whose client_secret exactly matches the
stored secret can still fail to reach the model gateway: POST
/generateSummary with a missing querySummaries passes the gate but throws
in the handler before any prompt is built, even though the upstream would
have answered normally, so exact equality does not imply that a model
call is attempted. -/
theorem claim_C1_counterexample :
    jsStrictEq (JsVal.str "sec") (JsVal.str "sec") = true
    ∧ (sdkSummaryRoute (.str "sec")
        (.ok ⟨none, some [⟨some ⟨some [⟨.str "hello"⟩]⟩⟩]⟩)
        ⟨.str "sec", .undefined, .str "tips"⟩).status = 500
    ∧ (sdkSummaryRoute (.str "sec")
        (.ok ⟨none, some [⟨some ⟨some [⟨.str "hello"⟩]⟩⟩]⟩)
        ⟨.str "sec", .undefined, .str "tips"⟩).sentPrompts = [] :=
  ⟨rfl, rfl, rfl⟩

/-- C1 (amended): on each of the six routes the 403 outcome (with no
prompt built, no model call, no log) happens exactly when the client_secret
of the body is not strictly equal to the stored secret; on strict equality
the gate lets the handler run, and a model call is attempted whenever the
prompt construction cannot throw (query and queryBody present for the
query-summary routes, querySummaries an array for the dashboard routes,
always for the suggestions routes; token acquisition succeeding in the
REST variant), in which case exactly one prompt is sent to the model
gateway. -/
theorem claim_C1_amended :
    ∀ (stored : JsVal) (up : Except String GenData)
      (token : Except String String) (resp : RestHttpResp)
      (qb : QuerySummaryBody) (sb : SummaryBody) (gb : SuggestionsBody),
      ((sdkQuerySummaryRoute stored up qb = forbidden)
        ↔ jsStrictEq qb.client_secret stored = false)
    ∧ ((sdkSummaryRoute stored up sb = forbidden)
        ↔ jsStrictEq sb.client_secret stored = false)
    ∧ ((sdkSuggestionsRoute stored up gb = forbidden)
        ↔ jsStrictEq gb.client_secret stored = false)
    ∧ ((restQuerySummaryRoute stored token resp qb = forbidden)
        ↔ jsStrictEq qb.client_secret stored = false)
    ∧ ((restSummaryRoute stored token resp sb = forbidden)
        ↔ jsStrictEq sb.client_secret stored = false)
    ∧ ((restSuggestionsRoute stored token resp gb = forbidden)
        ↔ jsStrictEq gb.client_secret stored = false)
    ∧ (jsStrictEq qb.client_secret stored = true →
        ∀ (qd : QueryDescriptor) (qbody : QueryBody) (tk : String),
          qb.query = some qd → qd.queryBody = some qbody → token = .ok tk →
          (sdkQuerySummaryRoute stored up qb).sentPrompts
              = [sdkQuerySummaryPromptOf
                  (sdkContext qd qbody qb.description qb.nextStepsInstructions)]
          ∧ (restQuerySummaryRoute stored token resp qb).sentPrompts
              = [restQuerySummaryPromptOf qd qbody qb.description
                  qb.nextStepsInstructions])
    ∧ (jsStrictEq gb.client_secret stored = true →
        ∀ (tk : String), token = .ok tk →
          (sdkSuggestionsRoute stored up gb).sentPrompts
              = [sdkSuggestionsPrompt gb.queryResults gb.querySummaries
                  gb.nextStepsInstructions]
          ∧ (restSuggestionsRoute stored token resp gb).sentPrompts
              = [restSuggestionsPrompt gb.queryResults gb.querySummaries
                  gb.nextStepsInstructions])
    ∧ (jsStrictEq sb.client_secret stored = true →
        ∀ (xs : List JsVal) (tk : String),
          sb.querySummaries = .arr xs → token = .ok tk →
          (sdkSummaryRoute stored up sb).sentPrompts
              = [sdkSummaryPromptOf (jsJoin "\n" xs) sb.nextStepsInstructions]
          ∧ (restSummaryRoute stored token resp sb).sentPrompts
              = [restSummaryPromptOf (jsJoin "\n" xs) sb.nextStepsInstructions]) := by
  intro stored up token resp qb sb gb
  refine ⟨gatedRoute_forbidden_iff _ _ _ _ _, gatedRoute_forbidden_iff _ _ _ _ _,
    gatedRoute_forbidden_iff _ _ _ _ _, gatedRoute_forbidden_iff _ _ _ _ _,
    gatedRoute_forbidden_iff _ _ _ _ _, gatedRoute_forbidden_iff _ _ _ _ _,
    ?_, ?_, ?_⟩
  · intro h qd qbody tk hq hqb htk
    constructor
    · rw [show sdkQuerySummaryRoute stored up qb
          = gatedRoute stored qb.client_secret "summary"
            "There was an error processing the individual query summary: "
            (sdkQuerySummaryCall up qb.query qb.description qb.nextStepsInstructions)
          from rfl, gatedRoute_sent _ _ _ h, hq]
      simp [sdkQuerySummaryCall, sdkQuerySummaryPrompt, hqb]
      cases up <;> simp
    · rw [show restQuerySummaryRoute stored token resp qb
          = gatedRoute stored qb.client_secret "summary"
            "Error in /generateQuerySummary: "
            (restQuerySummaryCall token resp qb.query qb.description
              qb.nextStepsInstructions)
          from rfl, gatedRoute_sent _ _ _ h, hq, htk]
      simp [restQuerySummaryCall, restQuerySummaryPrompt, hqb]
  · intro h tk htk
    constructor
    · rw [show sdkSuggestionsRoute stored up gb
          = gatedRoute stored gb.client_secret "suggestions"
            "There was an error processing the query suggestions: "
            (sdkSuggestionsCall up gb.queryResults gb.querySummaries
              gb.nextStepsInstructions)
          from rfl, gatedRoute_sent _ _ _ h]
      simp [sdkSuggestionsCall]
      cases up <;> simp
    · rw [show restSuggestionsRoute stored token resp gb
          = gatedRoute stored gb.client_secret "suggestions"
            "Error in /generateQuerySuggestions: "
            (restSuggestionsCall token resp gb.queryResults gb.querySummaries
              gb.nextStepsInstructions)
          from rfl, gatedRoute_sent _ _ _ h, htk]
      simp [restSuggestionsCall]
  · intro h xs tk hxs htk
    constructor
    · rw [show sdkSummaryRoute stored up sb
          = gatedRoute stored sb.client_secret "summary"
            "There was an error processing the dashboard summary: "
            (sdkSummaryCall up sb.querySummaries sb.nextStepsInstructions)
          from rfl, gatedRoute_sent _ _ _ h, hxs]
      simp [sdkSummaryCall]
      cases up <;> simp
    · rw [show restSummaryRoute stored token resp sb
          = gatedRoute stored sb.client_secret "summary"
            "Error in /generateSummary: "
            (restSummaryCall token resp sb.querySummaries sb.nextStepsInstructions)
          from rfl, gatedRoute_sent _ _ _ h, hxs, htk]
      simp [restSummaryCall]

/-- Witness for C1 at a concrete request: correct secret "s", a well-formed
query body, and an ok token. -/
theorem claim_C1_witness :
    jsStrictEq (.str "s") (.str "s") = true
    ∧ ((sdkQuerySummaryRoute (.str "s") (.error "boom")
        ⟨.str "s", some ⟨.str "T", .str "N", some ⟨.str "f"⟩, .arr []⟩,
          .str "d", .str "i"⟩).sentPrompts
        = [sdkQuerySummaryPromptOf
            (sdkContext ⟨.str "T", .str "N", some ⟨.str "f"⟩, .arr []⟩
              ⟨.str "f"⟩ (.str "d") (.str "i"))]) := by
  constructor
  · rfl
  · exact ((claim_C1_amended (.str "s") (.error "boom") (.ok "tok")
      ⟨200, "", ⟨none, none⟩⟩
      ⟨.str "s", some ⟨.str "T", .str "N", some ⟨.str "f"⟩, .arr []⟩, .str "d", .str "i"⟩
      ⟨.str "s", .arr [], .str "i"⟩
      ⟨.str "s", .arr [], .arr [], .str "i"⟩).2.2.2.2.2.2.1
      rfl ⟨.str "T", .str "N", some ⟨.str "f"⟩, .arr []⟩ ⟨.str "f"⟩ "tok"
      rfl rfl rfl).1


theorem mentions_append_left (a : String) {h n : String}
    (hm : Mentions h n) : Mentions (a ++ h) n := by
  obtain ⟨s, t, hst⟩ := hm
  exact ⟨a.data ++ s, t, by simp [String.data_append, ← hst, List.append_assoc]⟩

theorem mentions_append_right {h n : String} (hm : Mentions h n)
    (b : String) : Mentions (h ++ b) n := by
  obtain ⟨s, t, hst⟩ := hm
  exact ⟨s, t ++ b.data, by simp [String.data_append, ← hst, List.append_assoc]⟩

theorem mentions_suffix (pre n : String) {h : String} (he : h = pre ++ n) :
    Mentions h n := by
  rw [he]
  exact ⟨pre.data, [], by simp [String.data_append]⟩

/-- C9: an authorized POST /generateSummary whose querySummaries is absent
(undefined), null, or a plain string (any value without a join method)
throws inside the handler before a prompt is rendered, so the response is
500 and no prompt is ever sent to the model gateway, in both variants. -/
theorem claim_C9 :
    ∀ (secret : String) (n : JsVal) (up : Except String GenData)
      (token : Except String String) (resp : RestHttpResp) (s : String),
      ((sdkSummaryRoute (.str secret) up ⟨.str secret, .undefined, n⟩).status = 500
        ∧ (sdkSummaryRoute (.str secret) up ⟨.str secret, .undefined, n⟩).sentPrompts = [])
    ∧ ((sdkSummaryRoute (.str secret) up ⟨.str secret, .null, n⟩).status = 500
        ∧ (sdkSummaryRoute (.str secret) up ⟨.str secret, .null, n⟩).sentPrompts = [])
    ∧ ((sdkSummaryRoute (.str secret) up ⟨.str secret, .str s, n⟩).status = 500
        ∧ (sdkSummaryRoute (.str secret) up ⟨.str secret, .str s, n⟩).sentPrompts = [])
    ∧ ((restSummaryRoute (.str secret) token resp ⟨.str secret, .undefined, n⟩).status = 500
        ∧ (restSummaryRoute (.str secret) token resp ⟨.str secret, .undefined, n⟩).sentPrompts = [])
    ∧ ((restSummaryRoute (.str secret) token resp ⟨.str secret, .null, n⟩).status = 500
        ∧ (restSummaryRoute (.str secret) token resp ⟨.str secret, .null, n⟩).sentPrompts = [])
    ∧ ((restSummaryRoute (.str secret) token resp ⟨.str secret, .str s, n⟩).status = 500
        ∧ (restSummaryRoute (.str secret) token resp ⟨.str secret, .str s, n⟩).sentPrompts = []) := by
  intro secret n up token resp s
  have hsec : jsStrictEq (.str secret) (.str secret) = true := by
    simp [jsStrictEq]
  cases token with
  | error e =>
    refine ⟨?_, ?_, ?_, ?_, ?_, ?_⟩ <;>
      simp [sdkSummaryRoute, restSummaryRoute, gatedRoute, hsec,
        sdkSummaryCall, restSummaryCall]
  | ok tk =>
    refine ⟨?_, ?_, ?_, ?_, ?_, ?_⟩ <;>
      simp [sdkSummaryRoute, restSummaryRoute, gatedRoute, hsec,
        sdkSummaryCall, restSummaryCall]

/-- C5: on an authorized request, when the REST upstream fetch resolves
with a non-2xx transport status, each of the three REST routes answers
exactly 500 with the fixed body "Internal Server Error" (independent of
the upstream error text), and the upstream status and raw body text appear
only in the single server-side log line. -/
theorem claim_C5 :
    ∀ (secret tk : String) (resp : RestHttpResp)
      (t nt f qd d n qr qs : JsVal) (xs : List JsVal),
      responseOk resp.status = false →
      (restQuerySummaryRoute (.str secret) (.ok tk) resp
          ⟨.str secret, some ⟨t, nt, some ⟨f⟩, qd⟩, d, n⟩
        = ⟨500, .plain "Internal Server Error",
            [restQuerySummaryPromptOf ⟨t, nt, some ⟨f⟩, qd⟩ ⟨f⟩ d n],
            ["Error in /generateQuerySummary: "
              ++ ("API request failed with status " ++ toString resp.status
                  ++ ": " ++ resp.bodyText)]⟩)
    ∧ (restSummaryRoute (.str secret) (.ok tk) resp ⟨.str secret, .arr xs, n⟩
        = ⟨500, .plain "Internal Server Error",
            [restSummaryPromptOf (jsJoin "\n" xs) n],
            ["Error in /generateSummary: "
              ++ ("API request failed with status " ++ toString resp.status
                  ++ ": " ++ resp.bodyText)]⟩)
    ∧ (restSuggestionsRoute (.str secret) (.ok tk) resp ⟨.str secret, qr, qs, n⟩
        = ⟨500, .plain "Internal Server Error",
            [restSuggestionsPrompt qr qs n],
            ["Error in /generateQuerySuggestions: "
              ++ ("API request failed with status " ++ toString resp.status
                  ++ ": " ++ resp.bodyText)]⟩)
    ∧ Mentions ("Error in /generateQuerySummary: "
          ++ ("API request failed with status " ++ toString resp.status
              ++ ": " ++ resp.bodyText)) resp.bodyText
    ∧ Mentions ("Error in /generateQuerySummary: "
          ++ ("API request failed with status " ++ toString resp.status
              ++ ": " ++ resp.bodyText)) (toString resp.status) := by
  intro secret tk resp t nt f qd d n qr qs xs hko
  have hsec : jsStrictEq (.str secret) (.str secret) = true := by
    simp [jsStrictEq]
  have herr : restAfterFetch resp
      = .error ("API request failed with status " ++ toString resp.status
          ++ ": " ++ resp.bodyText) := by
    simp [restAfterFetch, hko]
  refine ⟨?_, ?_, ?_, ?_, ?_⟩
  · simp [restQuerySummaryRoute, gatedRoute, hsec, restQuerySummaryCall,
      restQuerySummaryPrompt, herr]
  · simp [restSummaryRoute, gatedRoute, hsec, restSummaryCall, herr]
  · simp [restSuggestionsRoute, gatedRoute, hsec, restSuggestionsCall, herr]
  · exact mentions_suffix
      ("Error in /generateQuerySummary: "
        ++ ("API request failed with status " ++ toString resp.status ++ ": "))
      resp.bodyText
      (String.ext (by simp [String.data_append, List.append_assoc]))
  · exact mentions_of_eq
      ("Error in /generateQuerySummary: " ++ "API request failed with status ")
      (toString resp.status) (": " ++ resp.bodyText)
      (String.ext (by simp [String.data_append, List.append_assoc]))

/-- Witness for C5: upstream status 404 with body text "not found". -/
theorem claim_C5_witness :
    responseOk 404 = false
    ∧ ((restSummaryRoute (.str "s") (.ok "tok") ⟨404, "not found", ⟨none, none⟩⟩
        ⟨.str "s", .arr [], .str "i"⟩).status = 500) := by
  refine ⟨by decide, ?_⟩
  rw [(claim_C5 "s" "tok" ⟨404, "not found", ⟨none, none⟩⟩
    .undefined .undefined .undefined .undefined .undefined (.str "i") .undefined .undefined []
    (by decide)).2.1]

/-- C6 counterexample: an authorized POST /generateSummary with no
querySummaries field responds 500 without rendering any prompt, so the
missing field is not interpolated as the literal "undefined" into a
prompt, contradicting the unrestricted claim.  (Both variants.) -/
theorem claim_C6_counterexample :
    (sdkSummaryRoute (.str "s") (.ok ⟨none, some []⟩)
        ⟨.str "s", .undefined, .undefined⟩).status = 500
    ∧ (sdkSummaryRoute (.str "s") (.ok ⟨none, some []⟩)
        ⟨.str "s", .undefined, .undefined⟩).sentPrompts = []
    ∧ (restSummaryRoute (.str "s") (.ok "tok") ⟨200, "", ⟨none, none⟩⟩
        ⟨.str "s", .undefined, .undefined⟩).status = 500
    ∧ (restSummaryRoute (.str "s") (.ok "tok") ⟨200, "", ⟨none, none⟩⟩
        ⟨.str "s", .undefined, .undefined⟩).sentPrompts = [] :=
  ⟨rfl, rfl, rfl, rfl⟩


theorem mentions_prefix_of_eq (n post : String) {h : String}
    (he : h = n ++ post) : Mentions h n := by
  rw [he]
  exact ⟨[], post.data, by simp [String.data_append]⟩

/-- C6 (amended): missing fields are read as undefined without validation;
the unguarded interpolations (queryResults in the suggestions prompt of
both variants, nextStepsInstructions in the dashboard prompt of both
variants) render the literal text "undefined", while the query-summary
description and nextStepsInstructions are guarded by a falsy-check and
render the empty string, and a missing query object makes the handler
throw, responding 500 with no prompt rendered at all. -/
theorem claim_C6_amended :
    ∀ (qs n : JsVal) (j : String) (secret : String) (d : JsVal)
      (up : Except String GenData) (token : Except String String)
      (resp : RestHttpResp),
      Mentions (sdkSuggestionsPrompt .undefined qs n) "undefined"
    ∧ Mentions (restSuggestionsPrompt .undefined qs n) "undefined"
    ∧ Mentions (sdkSummaryPromptOf j .undefined) "undefined"
    ∧ Mentions (restSummaryPromptOf j .undefined) "undefined"
    ∧ jsOrEmptyStr .undefined = ""
    ∧ (sdkQuerySummaryRoute (.str secret) up ⟨.str secret, none, d, n⟩).status = 500
    ∧ (sdkQuerySummaryRoute (.str secret) up ⟨.str secret, none, d, n⟩).sentPrompts = []
    ∧ (restQuerySummaryRoute (.str secret) token resp
        ⟨.str secret, none, d, n⟩).status = 500
    ∧ (restQuerySummaryRoute (.str secret) token resp
        ⟨.str secret, none, d, n⟩).sentPrompts = [] := by
  intro qs n j secret d up token resp
  have hsec : jsStrictEq (.str secret) (.str secret) = true := by
    simp [jsStrictEq]
  refine ⟨?_, ?_, ?_, ?_, rfl, ?_, ?_, ?_, ?_⟩
  · unfold sdkSuggestionsPrompt
    iterate 6 apply mentions_append_left
    exact mentions_append_right (mentions_self "undefined") _
  · unfold restSuggestionsPrompt
    iterate 6 apply mentions_append_left
    exact mentions_append_right (mentions_self "undefined") _
  · unfold sdkSummaryPromptOf
    iterate 11 apply mentions_append_left
    exact mentions_append_right (mentions_self "undefined") _
  · unfold restSummaryPromptOf
    iterate 11 apply mentions_append_left
    exact mentions_append_right (mentions_self "undefined") _
  · simp [sdkQuerySummaryRoute, gatedRoute, hsec, sdkQuerySummaryCall]
  · simp [sdkQuerySummaryRoute, gatedRoute, hsec, sdkQuerySummaryCall]
  · cases token with
    | error e => simp [restQuerySummaryRoute, gatedRoute, hsec, restQuerySummaryCall]
    | ok tk => simp [restQuerySummaryRoute, gatedRoute, hsec, restQuerySummaryCall]
  · cases token with
    | error e => simp [restQuerySummaryRoute, gatedRoute, hsec, restQuerySummaryCall]
    | ok tk => simp [restQuerySummaryRoute, gatedRoute, hsec, restQuerySummaryCall]

/-- C10: in both variants the query-summary prompt renders an absent
description and absent nextStepsInstructions as the empty string (guarded
by a falsy-check), not as "undefined": the prompt contains the two labels
with nothing interpolated between them. -/
theorem mentions_glue3 (n1 mid1 n2 mid2 n3 rest T : String)
    (hm1 : mid1 = "") (hm2 : mid2 = "")
    (hT : T.data = n1.data ++ (n2.data ++ n3.data)) :
    Mentions (n1 ++ (mid1 ++ (n2 ++ (mid2 ++ (n3 ++ rest))))) T := by
  refine ⟨[], rest.data, ?_⟩
  simp [hT, hm1, hm2, String.data_append, List.append_assoc]

theorem claim_C10 :
    ∀ (t nt qbf qd : JsVal),
      Mentions (sdkQuerySummaryPromptOf
          (sdkContext ⟨t, nt, some ⟨qbf⟩, qd⟩ ⟨qbf⟩ .undefined .undefined))
        "Summary style/specialized instructions: \n    Dashboard Detail:  \n"
    ∧ Mentions (restQuerySummaryPromptOf ⟨t, nt, some ⟨qbf⟩, qd⟩ ⟨qbf⟩ .undefined .undefined)
        "Summary style/specialized instructions: \n    Dashboard Detail:  \n"
    ∧ jsOrEmptyStr .undefined = "" := by
  intro t nt qbf qd
  refine ⟨?_, ?_, rfl⟩
  · unfold sdkQuerySummaryPromptOf
    iterate 6 apply mentions_append_left
    apply mentions_append_right
    unfold sdkContext
    apply mentions_append_left
    exact mentions_glue3 "Summary style/specialized instructions: "
      (jsOrEmptyStr .undefined) "\n    Dashboard Detail: " (jsOrEmptyStr .undefined)
      " \n" _ _ rfl rfl rfl
  · unfold restQuerySummaryPromptOf
    iterate 6 apply mentions_append_left
    exact mentions_glue3 "Summary style/specialized instructions: "
      (jsOrEmptyStr .undefined) "\n    Dashboard Detail: " (jsOrEmptyStr .undefined)
      " \n" _ _ rfl rfl rfl

/-- C4: the dashboard-summary prompt of both variants contains the
newline-join of the querySummaries array verbatim; on a two-element string
array the join is the first element, a newline, and the second element, so
for the array of "A" and "B" it is "A\nB". -/
theorem claim_C4 :
    ∀ (xs : List JsVal) (n : JsVal) (a b : String),
      Mentions (sdkSummaryPromptOf (jsJoin "\n" xs) n) (jsJoin "\n" xs)
    ∧ Mentions (restSummaryPromptOf (jsJoin "\n" xs) n) (jsJoin "\n" xs)
    ∧ jsJoin "\n" [.str a, .str b] = a ++ "\n" ++ b
    ∧ jsJoin "\n" [.str "A", .str "B"] = "A\nB" := by
  intro xs n a b
  refine ⟨?_, ?_, rfl, rfl⟩
  · unfold sdkSummaryPromptOf
    iterate 4 apply mentions_append_left
    exact mentions_append_right (mentions_self _) _
  · unfold restSummaryPromptOf
    iterate 4 apply mentions_append_left
    exact mentions_append_right (mentions_self _) _


theorem strAppend_ne (p : String) {x y : String} (h : x ≠ y) :
    p ++ x ≠ p ++ y := fun he => h (strAppend_left_cancel he)

/-- C7 counterexample: on the identical input (querySummaries joined from
the array of "A" and "B", nextStepsInstructions "x") the dashboard-summary
prompts of the two variants are different strings, so the prompt builders
are not behaviorally identical. -/
theorem claim_C7_counterexample :
    sdkSummaryPromptOf (jsJoin "\n" [.str "A", .str "B"]) (.str "x")
      ≠ restSummaryPromptOf (jsJoin "\n" [.str "A", .str "B"]) (.str "x") := by
  unfold sdkSummaryPromptOf restSummaryPromptOf
  iterate 2 apply strAppend_ne
  exact string_ne_of_single_head (by decide) _ _ rfl rfl

/-- C7 (amended): the two variants expose the same three endpoints and the
same gate, but they are not behaviorally redundant at the prompt level:
for every identical input, each of the three prompt builders of the SDK
variant renders a different text from its REST counterpart (the fixed
template text differs in code-fence and quoting characters and in
whitespace, and the query-summary variants also differ in the note_text
emptiness check). -/
theorem claim_C7_amended :
    ∀ (q : QueryDescriptor) (qb : QueryBody) (d n qr qs nn : JsVal) (j : String),
      sdkQuerySummaryPromptOf (sdkContext q qb d n) ≠ restQuerySummaryPromptOf q qb d n
    ∧ sdkSummaryPromptOf j nn ≠ restSummaryPromptOf j nn
    ∧ sdkSuggestionsPrompt qr qs nn ≠ restSuggestionsPrompt qr qs nn := by
  intro q qb d n qr qs nn j
  refine ⟨?_, ?_, ?_⟩
  · unfold sdkQuerySummaryPromptOf restQuerySummaryPromptOf
    iterate 3 apply strAppend_ne
    exact string_ne_of_single_head (by decide) _ _ rfl rfl
  · unfold sdkSummaryPromptOf restSummaryPromptOf
    iterate 2 apply strAppend_ne
    exact string_ne_of_single_head (by decide) _ _ rfl rfl
  · unfold sdkSuggestionsPrompt restSuggestionsPrompt
    iterate 12 apply strAppend_ne
    exact string_ne_of_single_head (by decide) _ _ rfl rfl

/-- C3 counterexample: an authorized SDK-variant request whose model
response decodes with an empty candidates array is answered 500 (the
unguarded extraction throws), not 200 with an empty summary. -/
theorem claim_C3_counterexample :
    (sdkQuerySummaryRoute (.str "s") (.ok ⟨none, some []⟩)
        ⟨.str "s", some ⟨.str "T", .str "N", some ⟨.str "f"⟩, .arr []⟩,
          .str "d", .str "i"⟩).status = 500
    ∧ (sdkQuerySummaryRoute (.str "s") (.ok ⟨none, some []⟩)
        ⟨.str "s", some ⟨.str "T", .str "N", some ⟨.str "f"⟩, .arr []⟩,
          .str "d", .str "i"⟩).body = .plain "Internal Server Error" :=
  ⟨rfl, rfl⟩

/-- C3 (amended): when the decoded model response carries an empty
candidates array, the three REST-variant routes still respond 200 with an
empty-string summary or suggestions field (the optional chain defaults to
the empty string), but the three SDK-variant routes respond 500, because
the SDK extraction path has no optional chaining and throws. -/
theorem claim_C3_amended :
    ∀ (secret tk bodyText : String) (t nt f qd d n qr qs : JsVal)
      (xs : List JsVal),
      ((restQuerySummaryRoute (.str secret) (.ok tk) ⟨200, bodyText, ⟨none, some []⟩⟩
          ⟨.str secret, some ⟨t, nt, some ⟨f⟩, qd⟩, d, n⟩).status = 200
        ∧ (restQuerySummaryRoute (.str secret) (.ok tk) ⟨200, bodyText, ⟨none, some []⟩⟩
            ⟨.str secret, some ⟨t, nt, some ⟨f⟩, qd⟩, d, n⟩).body
          = .jsonField "summary" (.str ""))
    ∧ ((restSummaryRoute (.str secret) (.ok tk) ⟨200, bodyText, ⟨none, some []⟩⟩
          ⟨.str secret, .arr xs, n⟩).status = 200
        ∧ (restSummaryRoute (.str secret) (.ok tk) ⟨200, bodyText, ⟨none, some []⟩⟩
            ⟨.str secret, .arr xs, n⟩).body = .jsonField "summary" (.str ""))
    ∧ ((restSuggestionsRoute (.str secret) (.ok tk) ⟨200, bodyText, ⟨none, some []⟩⟩
          ⟨.str secret, qr, qs, n⟩).status = 200
        ∧ (restSuggestionsRoute (.str secret) (.ok tk) ⟨200, bodyText, ⟨none, some []⟩⟩
            ⟨.str secret, qr, qs, n⟩).body = .jsonField "suggestions" (.str ""))
    ∧ (sdkQuerySummaryRoute (.str secret) (.ok ⟨none, some []⟩)
        ⟨.str secret, some ⟨t, nt, some ⟨f⟩, qd⟩, d, n⟩).status = 500
    ∧ (sdkSummaryRoute (.str secret) (.ok ⟨none, some []⟩)
        ⟨.str secret, .arr xs, n⟩).status = 500
    ∧ (sdkSuggestionsRoute (.str secret) (.ok ⟨none, some []⟩)
        ⟨.str secret, qr, qs, n⟩).status = 500 := by
  intro secret tk bodyText t nt f qd d n qr qs xs
  have hsec : jsStrictEq (.str secret) (.str secret) = true := by
    simp [jsStrictEq]
  have hfetch : restAfterFetch ⟨200, bodyText, ⟨none, some []⟩⟩ = .ok (.str "") := by
    simp [restAfterFetch, responseOk, extractREST]
  have hsdk : extractSDK ⟨none, some []⟩
      = .error "TypeError: Cannot read properties of undefined (reading content)" := rfl
  refine ⟨⟨?_, ?_⟩, ⟨?_, ?_⟩, ⟨?_, ?_⟩, ?_, ?_, ?_⟩ <;>
    simp [restQuerySummaryRoute, restSummaryRoute, restSuggestionsRoute,
      sdkQuerySummaryRoute, sdkSummaryRoute, sdkSuggestionsRoute,
      gatedRoute, hsec, restQuerySummaryCall, restSummaryCall,
      restSuggestionsCall, sdkQuerySummaryCall, sdkSummaryCall,
      sdkSuggestionsCall, restQuerySummaryPrompt, sdkQuerySummaryPrompt,
      hfetch, hsdk]


/-- C2 counterexample: the SDK variant note check
(`note_text !== ... || note_text !== null`) is true even for an empty
note_text, so the rendered SDK query-summary prompt for a query whose
note_text is the empty string still contains "Query Note: ",
contradicting the claim that the substring is absent for empty note_text. -/
theorem claim_C2_counterexample :
    Mentions (sdkQuerySummaryPromptOf (sdkContext
        ⟨.str "Traffic", .str "", some ⟨.str "f1, f2"⟩, .arr []⟩ ⟨.str "f1, f2"⟩
        (.str "demo") (.str "tips"))) "Query Note: " := by
  unfold sdkQuerySummaryPromptOf
  iterate 6 apply mentions_append_left
  apply mentions_append_right
  unfold sdkContext
  iterate 9 apply mentions_append_left
  apply mentions_append_right
  exact mentions_prefix_of_eq "Query Note: " "" rfl

set_option maxRecDepth 20000 in
set_option maxHeartbeats 4000000 in
/-- C2 (amended): for every non-empty string note_text both variants
render "Query Note: " immediately followed by the note text.  The SDK
variant emptiness check is however vacuously true for every value, so the
SDK prompt contains "Query Note: " even when note_text is the empty
string.  The REST variant renders an empty note segment for empty or null
note_text — in particular, at a representative concrete query with empty
note_text its rendered prompt nowhere contains "Query Note: " — but for an
absent (undefined) note_text it renders "Query Note: undefined". -/
theorem claim_C2_amended :
    ∀ (s : String) (t f qd d n nt : JsVal),
      (s ≠ "" →
        Mentions (sdkQuerySummaryPromptOf
            (sdkContext ⟨t, .str s, some ⟨f⟩, qd⟩ ⟨f⟩ d n))
          ("Query Note: " ++ s)
        ∧ Mentions (restQuerySummaryPromptOf ⟨t, .str s, some ⟨f⟩, qd⟩ ⟨f⟩ d n)
          ("Query Note: " ++ s))
    ∧ sdkNoteCond nt = true
    ∧ Mentions (sdkQuerySummaryPromptOf
          (sdkContext ⟨t, .str "", some ⟨f⟩, qd⟩ ⟨f⟩ d n))
        "Query Note: "
    ∧ restNoteSeg (.str "") = ""
    ∧ restNoteSeg .null = ""
    ∧ Mentions (restQuerySummaryPromptOf ⟨t, .undefined, some ⟨f⟩, qd⟩ ⟨f⟩ d n)
        "Query Note: undefined"
    ∧ ¬ Mentions (restQuerySummaryPromptOf
          ⟨.str "Web Traffic", .str "", some ⟨.str "source, amount"⟩, .arr []⟩
          ⟨.str "source, amount"⟩ (.str "demo description")
          (.str "demo instructions"))
        "Query Note: " := by
  intro s t f qd d n nt
  refine ⟨?_, ?_, ?_, rfl, rfl, ?_, ?_⟩
  · intro hs
    have hcond : sdkNoteCond (.str s) = true := by
      simp [sdkNoteCond, jsStrictEq]
    have hseg : sdkNoteSeg (.str s) = "Query Note: " ++ s := by
      simp [sdkNoteSeg, hcond, jsValToString]
    have hrcond : restNoteCond (.str s) = true := by
      simp [restNoteCond, jsStrictEq, hs]
    have hrseg : restNoteSeg (.str s) = "Query Note: " ++ s := by
      simp [restNoteSeg, hrcond, jsValToString]
    constructor
    · unfold sdkQuerySummaryPromptOf
      iterate 6 apply mentions_append_left
      apply mentions_append_right
      unfold sdkContext
      iterate 9 apply mentions_append_left
      apply mentions_append_right
      exact hseg ▸ mentions_self _
    · unfold restQuerySummaryPromptOf
      iterate 14 apply mentions_append_left
      apply mentions_append_right
      exact hrseg ▸ mentions_self _
  · cases nt <;> simp [sdkNoteCond, jsStrictEq]
  · unfold sdkQuerySummaryPromptOf
    iterate 6 apply mentions_append_left
    apply mentions_append_right
    unfold sdkContext
    iterate 9 apply mentions_append_left
    apply mentions_append_right
    exact mentions_prefix_of_eq "Query Note: " "" rfl
  · unfold restQuerySummaryPromptOf
    iterate 14 apply mentions_append_left
    apply mentions_append_right
    exact mentions_self _
  · intro hmem
    unfold Mentions restQuerySummaryPromptOf at hmem
    simp only [String.data_append] at hmem
    have h1 := infix_append_elim _ _ _ hmem (by decide)
    have h2 := infix_append_elim _ _ _ h1 (by decide)
    have h3 := infix_append_elim _ _ _ h2 (by decide)
    have h4 := infix_append_elim _ _ _ h3 (by decide)
    have h5 := infix_append_elim _ _ _ h4 (by decide)
    have h6 := infix_append_elim _ _ _ h5 (by decide)
    have h7 := infix_append_elim _ _ _ h6 (by decide)
    have h8 := infix_append_elim _ _ _ h7 (by decide)
    have h9 := infix_append_elim _ _ _ h8 (by decide)
    have h10 := infix_append_elim _ _ _ h9 (by decide)
    have h11 := infix_append_elim _ _ _ h10 (by decide)
    have h12 := infix_append_elim _ _ _ h11 (by decide)
    have h13 := infix_append_elim _ _ _ h12 (by decide)
    have h14 := infix_append_elim _ _ _ h13 (by decide)
    have h15 := infix_append_elim _ _ _ h14 (by decide)
    have h16 := infix_append_elim _ _ _ h15 (by decide)
    have h17 := infix_append_elim _ _ _ h16 (by decide)
    have h18 := infix_append_elim _ _ _ h17 (by decide)
    have h19 := infix_append_elim _ _ _ h18 (by decide)
    have h20 := infix_append_elim _ _ _ h19 (by decide)
    have h21 := infix_append_elim _ _ _ h20 (by decide)
    exact absurd ((subOf_iff _ _).mpr h21) (by decide)

/-- Witness for C2 (amended) at the non-empty note text "note". -/
theorem claim_C2_witness :
    ("note" : String) ≠ ""
    ∧ (Mentions (sdkQuerySummaryPromptOf
          (sdkContext ⟨.undefined, .str "note", some ⟨.undefined⟩, .undefined⟩ ⟨.undefined⟩
            .undefined .undefined))
        ("Query Note: " ++ "note")
      ∧ Mentions (restQuerySummaryPromptOf
          ⟨.undefined, .str "note", some ⟨.undefined⟩, .undefined⟩ ⟨.undefined⟩ .undefined .undefined)
        ("Query Note: " ++ "note")) :=
  ⟨by decide,
    (claim_C2_amended "note" .undefined .undefined .undefined .undefined .undefined .undefined).1
      (by decide)⟩

end DashSum
